/-
Verification of the smtpymailer repository's validation and image-embedding
logic against its natural-language specification.

The definitions below are a shallow embedding of the Python sources:
  * smtpymailer/validation.py  (DKIM / DMARC / SPF record validation,
    IP network membership via the `ipaddress` standard library)
  * smtpymailer/html_parse.py  (image embedding as base64 data URIs or
    CID MIME attachments)

External collaborators (DNS resolution, HTTP fetching, PIL image
re-encoding, the `email_validator` library) are modelled as explicit
function parameters ("oracles") or as small spec-modelled predicates, as
described in the specification's section 6.  Machine integers are
modelled as `Nat` with explicit `% 2 ^ w` reductions where overflow
matters.  Python exceptions are modelled with `Except`; a Python
function that can either return a value or raise becomes a Lean
function into `Except e a`.
-/
import Mathlib

deriving instance DecidableEq for Except

namespace Smtpymailer

/-! ## Python string primitives

Helpers mirroring the Python `str` methods used by the sources:
`strip`, `strip('"')`, `split()` (whitespace split), and the ASCII
whitespace class used by `strip` and by the regex `\s` (modelled for
ASCII input). -/

/-- Characters treated as whitespace by Python `str.strip()` and by the
regex class `\s` (ASCII fragment). -/
def isPySpace (c : Char) : Bool :=
  c = ' ' || c = '\t' || c = '\n' || c = '\r' || c = '\x0b' || c = '\x0c'

/-- Python `str.strip()`: remove leading and trailing whitespace. -/
def pyStrip (s : String) : String :=
  ⟨((s.data.dropWhile isPySpace).reverse.dropWhile isPySpace).reverse⟩

/-- Python `str.strip(c)` for a single character `c`: remove leading and
trailing occurrences of `c`. -/
def pyStripChar (c : Char) (s : String) : String :=
  ⟨((s.data.dropWhile (· = c)).reverse.dropWhile (· = c)).reverse⟩

/-- Split a character list at every character satisfying `p`
(structural analogue of Python `str.split(sep)` field splitting). -/
def splitByPred (p : Char → Bool) : List Char → List (List Char)
  | [] => [[]]
  | c :: rest =>
    match splitByPred p rest with
    | [] => if p c then [[], [c]] else [[c]]
    | h :: t => if p c then [] :: h :: t else (c :: h) :: t

/-- Python `str.split(sep)` for a single-character separator. -/
def strSplit (sep : Char) (s : String) : List String :=
  (splitByPred (· = sep) s.data).map (⟨·⟩)

/-- Python `str.split()` with no argument: split on runs of whitespace,
discarding empty fields. -/
def pySplitWs (s : String) : List String :=
  ((splitByPred isPySpace s.data).filter (· ≠ [])).map (⟨·⟩)

/-- Python `str.replace(c, "")` for a single character. -/
def removeChar (c : Char) (s : String) : String :=
  ⟨s.data.filter (· ≠ c)⟩

/-- Python `str.lower()` (ASCII). -/
def strLower (s : String) : String :=
  ⟨s.data.map Char.toLower⟩

/-- Python `str.startswith(pat)`. -/
def strStartsWith (s pat : String) : Bool :=
  s.data.take pat.data.length = pat.data

/-- Left-to-right, non-overlapping replacement of a non-empty pattern,
fuelled by the input length (each step consumes at least one
character, so the fuel never runs out). -/
def replaceSub (pat repl : List Char) : Nat → List Char → List Char
  | 0, l => l
  | _, [] => []
  | f + 1, c :: rest =>
    if pat ≠ [] ∧ (c :: rest).take pat.length = pat then
      repl ++ replaceSub pat repl f ((c :: rest).drop pat.length)
    else c :: replaceSub pat repl f rest

/-- Python `str.replace(pat, repl)` for a non-empty pattern. -/
def strReplace (s pat repl : String) : String :=
  ⟨replaceSub pat.data repl.data s.data.length s.data⟩

/-- Decimal value of a digit string (callers check `isDigit` first). -/
def digitsToNat (l : List Char) : Nat :=
  l.foldl (fun a c => a * 10 + (c.toNat - 48)) 0

/-! ## The `ipaddress` standard-library model

`validation.is_ip_in_network` delegates parsing to Python's `ipaddress`
module.  The definitions below model `IPv4Address`, `IPv6Address`,
`ip_address`, `ip_interface` and network membership for string inputs,
following the CPython implementation (ASCII digits, no leading zeros in
IPv4 octets, `::` compression and embedded IPv4 in IPv6, optional
`%scope` suffix on IPv6 addresses, and integer or dotted
netmask/hostmask prefix parts for IPv4 interfaces). -/

/-- CPython `_parse_octet`: 1–3 ASCII digits, value ≤ 255, no leading
zero unless the octet is exactly "0". -/
def parseOctet (s : String) : Option Nat :=
  if s.length = 0 then none
  else if ¬ s.data.all (fun c => c.isDigit) then none
  else if 3 < s.length then none
  else if 1 < s.length ∧ s.data.head? = some '0' then none
  else
    let v := digitsToNat s.data
    if v ≤ 255 then some v else none

/-- CPython `IPv4Address._ip_int_from_string`: exactly four octets. -/
def parseIPv4 (s : String) : Option Nat :=
  match (strSplit '.' s).map parseOctet with
  | [some a, some b, some c, some d] => some (((a * 256 + b) * 256 + c) * 256 + d)
  | _ => none

/-- Hexadecimal digit test (ASCII). -/
def isHexChar (c : Char) : Bool :=
  c.isDigit || ('a' ≤ c ∧ c ≤ 'f') || ('A' ≤ c ∧ c ≤ 'F')

/-- Value of an ASCII hexadecimal digit. -/
def hexVal (c : Char) : Nat :=
  if c.isDigit then c.toNat - 48
  else if 'a' ≤ c then c.toNat - 87
  else c.toNat - 55

/-- CPython `_parse_hextet`: 1–4 hexadecimal digits. -/
def parseHextet (l : List Char) : Option Nat :=
  if l.length = 0 ∨ 4 < l.length ∨ ¬ l.all isHexChar then none
  else some (l.foldl (fun a c => a * 16 + hexVal c) 0)

/-- One colon-separated piece of an IPv6 address: either raw text or an
already-computed 16-bit value (used for the embedded-IPv4 suffix, which
CPython rewrites into two hextets). -/
abbrev HexPart := String ⊕ Nat

/-- Whether a piece is the empty string (part of a `::`). -/
def hpartEmpty : HexPart → Bool
  | Sum.inl s => s = ""
  | Sum.inr _ => false

/-- Numeric value of a piece, if well-formed. -/
def hpartVal : HexPart → Option Nat
  | Sum.inl s => parseHextet s.data
  | Sum.inr v => some v

/-- Split an IPv6 address body on ':' and rewrite a trailing
dotted-quad IPv4 suffix into two 16-bit pieces, as CPython does. -/
def v6parts (s : String) : Option (List HexPart) :=
  let parts := strSplit ':' s
  if parts.length < 3 then none
  else
    let lastP := parts.getLastD ""
    if lastP.data.contains '.' then
      match parseIPv4 lastP with
      | none => none
      | some v4 => some ((parts.dropLast.map Sum.inl) ++ [Sum.inr (v4 / 65536), Sum.inr (v4 % 65536)])
    else some (parts.map Sum.inl)

/-- Accumulate hextet values left to right, 16 bits each. -/
def foldHextets (l : List HexPart) (init : Nat) : Option Nat :=
  l.foldl
    (fun acc p =>
      match acc, hpartVal p with
      | some a, some v => some (a * 65536 + v)
      | _, _ => none)
    (some init)

/-- CPython `IPv6Address._ip_int_from_string`: handles the `::`
compression (at most one, only interior empty pieces, leading/trailing
colon only as part of `::`), at most 9 pieces, exactly 8 hextets when
uncompressed. -/
def parseIPv6NoScope (s : String) : Option Nat :=
  match v6parts s with
  | none => none
  | some parts =>
    let n := parts.length
    if 9 < n then none
    else
      let empties := (List.range n).filter
        (fun i => 1 ≤ i ∧ i + 1 < n ∧ hpartEmpty (parts.getD i (Sum.inl "x")))
      match empties with
      | [] =>
        if n = 8 then foldHextets parts 0 else none
      | [skip] =>
        let headEmpty := hpartEmpty (parts.headD (Sum.inl "x"))
        let lastEmpty := hpartEmpty (parts.getLastD (Sum.inl "x"))
        let hi := if headEmpty then skip - 1 else skip
        let lo0 := n - skip - 1
        let lo := if lastEmpty then lo0 - 1 else lo0
        if headEmpty ∧ hi ≠ 0 then none
        else if lastEmpty ∧ lo ≠ 0 then none
        else if 8 ≤ hi + lo then none
        else
          let skipped := 8 - (hi + lo)
          match foldHextets (parts.take hi) 0 with
          | none => none
          | some hiVal => foldHextets (parts.drop (n - lo)) (hiVal * 65536 ^ skipped)
      | _ => none

/-- CPython `IPv6Address.__init__`: an optional `%scope` suffix is
split off before parsing; the scope must be non-empty and contain no
further '%'. -/
def parseIPv6 (s : String) : Option Nat :=
  let pre := s.data.takeWhile (· ≠ '%')
  if pre.length = s.data.length then parseIPv6NoScope s
  else
    let scope := s.data.drop (pre.length + 1)
    if scope = [] ∨ scope.contains '%' then none
    else parseIPv6NoScope ⟨pre⟩

/-- Result of `ipaddress.ip_address`: a parsed IPv4 or IPv6 literal. -/
inductive IpAddr where
  | v4 (val : Nat)
  | v6 (val : Nat)
deriving DecidableEq

/-- CPython `ipaddress.ip_address`: try IPv4, then IPv6. -/
def ip_address (s : String) : Option IpAddr :=
  match parseIPv4 s with
  | some v => some (IpAddr.v4 v)
  | none => (parseIPv6 s).map IpAddr.v6

/-- A parsed `ip_interface`: version flag, address integer, and
network prefix length. -/
structure Iface where
  isV6 : Bool
  addr : Nat
  plen : Nat
deriving DecidableEq

/-- IPv4 network mask with `p` leading one bits. -/
def v4mask (p : Nat) : Nat := (2 ^ p - 1) * 2 ^ (32 - p)

/-- IPv6 network mask with `p` leading one bits. -/
def v6mask (p : Nat) : Nat := (2 ^ p - 1) * 2 ^ (128 - p)

/-- CPython `_prefix_from_ip_int` for IPv4: the mask value must consist
of contiguous leading one bits. -/
def netmaskToPrefix4 (m : Nat) : Option Nat :=
  (List.range 33).find? (fun p => v4mask p = m)

/-- CPython `IPv4Network._make_netmask` for a string argument: an
all-digits prefix length ≤ 32, otherwise a dotted netmask or hostmask. -/
def parsePrefix4 (s : String) : Option Nat :=
  if s ≠ "" ∧ s.data.all (fun c => c.isDigit) ∧ digitsToNat s.data ≤ 32 then
    some (digitsToNat s.data)
  else
    match parseIPv4 s with
    | none => none
    | some m =>
      match netmaskToPrefix4 m with
      | some p => some p
      | none => netmaskToPrefix4 (m ^^^ 4294967295)

/-- CPython `IPv6Network._make_netmask` for a string argument: only an
all-digits prefix length ≤ 128 is accepted. -/
def parsePrefix6 (s : String) : Option Nat :=
  if s ≠ "" ∧ s.data.all (fun c => c.isDigit) ∧ digitsToNat s.data ≤ 128 then
    some (digitsToNat s.data)
  else none

/-- CPython `IPv4Interface` construction from a string: at most one
'/', address part plus optional prefix part (default 32). -/
def v4Interface (s : String) : Option Iface :=
  match strSplit '/' s with
  | [a] => (parseIPv4 a).map (fun v => ⟨false, v, 32⟩)
  | [a, p] =>
    match parseIPv4 a, parsePrefix4 p with
    | some v, some pl => some ⟨false, v, pl⟩
    | _, _ => none
  | _ => none

/-- CPython `IPv6Interface` construction from a string (default prefix
length 128). -/
def v6Interface (s : String) : Option Iface :=
  match strSplit '/' s with
  | [a] => (parseIPv6 a).map (fun v => ⟨true, v, 128⟩)
  | [a, p] =>
    match parseIPv6 a, parsePrefix6 p with
    | some v, some pl => some ⟨true, v, pl⟩
    | _, _ => none
  | _ => none

/-- CPython `ipaddress.ip_interface`: try IPv4, then IPv6. -/
def ip_interface (s : String) : Option Iface :=
  match v4Interface s with
  | some i => some i
  | none => v6Interface s

/-- CPython `_BaseNetwork.__contains__` on `interface.network`: false
on version mismatch, otherwise compare the address under the network
mask against the (masked) network address. -/
def ipInIface (a : IpAddr) (i : Iface) : Bool :=
  match a with
  | IpAddr.v4 v => ¬ i.isV6 ∧ (v &&& v4mask i.plen) = (i.addr &&& v4mask i.plen)
  | IpAddr.v6 v => i.isV6 ∧ (v &&& v6mask i.plen) = (i.addr &&& v6mask i.plen)

/-- Model of `validation.is_ip_in_network` (validation.py lines
121–147): parse the IP literal and the network; a parse failure on
either raises `ValueError("Invalid IP or network")`, otherwise return
the membership test.  (The `TypeError` branch for non-string arguments
is unrepresentable here since Lean is statically typed.) -/
def is_ip_in_network (ip network : String) : Except String Bool :=
  match ip_address ip, ip_interface network with
  | some a, some i => Except.ok (ipInIface a i)
  | _, _ => Except.error "Invalid IP or network"

/-! ## The `base64` standard-library model

`validate_dkim_record` calls `base64.b64decode`, which in CPython is
`binascii.a2b_base64` in non-strict mode: characters outside the
base64 alphabet are skipped, a padding character is ignored before two
data characters of a quad have been seen, enough padding after two or
three data characters ends decoding, and a leftover partial quad at
the end of input is an error (`binascii.Error`). -/

/-- Membership in the base64 data alphabet `[A-Za-z0-9+/]`. -/
def isB64Char (c : Char) : Bool :=
  c.isAlpha || c.isDigit || c = '+' || c = '/'

/-- Value of a base64 alphabet character. -/
def b64Val (c : Char) : Nat :=
  if 'A' ≤ c ∧ c ≤ 'Z' then c.toNat - 65
  else if 'a' ≤ c ∧ c ≤ 'z' then c.toNat - 71
  else if c.isDigit then c.toNat + 4
  else if c = '+' then 62
  else 63

/-- Main loop of CPython `binascii.a2b_base64` (non-strict mode).
State: remaining input, bit buffer, position in the current quad,
padding characters seen, and output bytes in reverse order.  Returns
the decoded bytes, or `none` for `binascii.Error`. -/
def a2bLoop : List Char → Nat → Nat → Nat → List Nat → Option (List Nat)
  | [], _, q, _, out =>
    if q = 0 then some out.reverse else none
  | c :: cs, buf, q, pads, out =>
    if c = '=' then
      if 2 ≤ q then
        if 4 ≤ q + pads + 1 then
          -- enough padding: emit the partial quad and stop
          if q = 2 then some ((buf / 16 :: out).reverse)
          else some (((buf / 4) % 256 :: buf / 1024 :: out).reverse)
        else a2bLoop cs buf q (pads + 1) out
      else a2bLoop cs buf q pads out
    else if isB64Char c then
      let buf' := buf * 64 + b64Val c
      if q = 3 then
        a2bLoop cs 0 0 pads (buf' % 256 :: (buf' / 256) % 256 :: buf' / 65536 :: out)
      else a2bLoop cs buf' (q + 1) pads out
    else a2bLoop cs buf q pads out

/-- CPython `base64.b64decode` on an ASCII string: returns the decoded
bytes or `none` for a raised `binascii.Error`. -/
def b64decode (l : List Char) : Option (List Nat) :=
  a2bLoop l 0 0 0 []

/-- Character of a 6-bit value in the standard base64 alphabet. -/
def b64Char (n : Nat) : Char :=
  if n < 26 then Char.ofNat (n + 65)
  else if n < 52 then Char.ofNat (n + 71)
  else if n < 62 then Char.ofNat (n - 4)
  else if n = 62 then '+'
  else '/'

/-- CPython `base64.b64encode` of a byte list, as characters. -/
def b64encode : List Nat → List Char
  | [] => []
  | [a] => [b64Char (a / 4), b64Char (a % 4 * 16), '=', '=']
  | [a, b] => [b64Char (a / 4), b64Char (a % 4 * 16 + b / 16), b64Char (b % 16 * 4), '=']
  | a :: b :: c :: rest =>
    b64Char (a / 4) :: b64Char (a % 4 * 16 + b / 16) ::
      b64Char (b % 16 * 4 + c / 64) :: b64Char (c % 64) :: b64encode rest

/-! ## RecordParser: DKIM (validation.py lines 36–61)

`validate_dkim_record` cleans the record (remove '"' and ' ', then
strip), matches it in full against

  `v=DKIM1;(\s*h=sha(1|256);)?(\s*k=rsa;)?(\s*t=[\w/]+;)?(\s*p=[A-Za-z0-9+/]+={0,2})`

then base64-decodes the fifth group with its first two characters
removed.  The regex is deterministic on this tag structure (each
optional group is committed by its first letters), so it is modelled
by a straight-line parser over the character list.  The `\s` and `\w`
classes are modelled for ASCII input. -/

/-- ASCII fragment of the regex word class `\w`. -/
def isWordChar (c : Char) : Bool :=
  c.isAlpha || c.isDigit || c = '_'

/-- The cleaning step of `validate_dkim_record`:
`record.replace('"', "").replace(" ", "").strip()`. -/
def dkimClean (s : String) : String :=
  pyStrip (removeChar ' ' (removeChar '"' s))

/-- Consume the optional group `(\s*h=sha(1|256);)?` at the start of
`l`; `none` means the whole match fails, otherwise the remainder. -/
def dkimHGroup (l : List Char) : Option (List Char) :=
  let ws := l.takeWhile isPySpace
  let r := l.drop ws.length
  if r.take 5 = "h=sha".data then
    let r' := r.drop 5
    if r'.take 2 = "1;".data then some (r'.drop 2)
    else if r'.take 4 = "256;".data then some (r'.drop 4)
    else none
  else some l

/-- Consume the optional group `(\s*k=rsa;)?`. -/
def dkimKGroup (l : List Char) : Option (List Char) :=
  let ws := l.takeWhile isPySpace
  let r := l.drop ws.length
  if r.take 6 = "k=rsa;".data then some (r.drop 6) else some l

/-- Consume the optional group `(\s*t=[\w/]+;)?`. -/
def dkimTGroup (l : List Char) : Option (List Char) :=
  let ws := l.takeWhile isPySpace
  let r := l.drop ws.length
  if r.take 2 = "t=".data then
    let body := (r.drop 2).takeWhile (fun c => isWordChar c || c = '/')
    let rest := (r.drop 2).drop body.length
    if body ≠ [] ∧ rest.head? = some ';' then some rest.tail
    else none
  else some l

/-- Match the final mandatory group `(\s*p=[A-Za-z0-9+/]+={0,2})`
against the whole remainder (full match).  On success return the text
of the group itself, leading whitespace included (the source slices
two characters off this group to remove `p=`). -/
def dkimPGroup (l : List Char) : Option (List Char) :=
  let ws := l.takeWhile isPySpace
  let r := l.drop ws.length
  if r.take 2 = "p=".data then
    let body := (r.drop 2).takeWhile isB64Char
    let rest := (r.drop 2).drop body.length
    let eqs := rest.takeWhile (· = '=')
    if body ≠ [] ∧ eqs.length ≤ 2 ∧ rest.drop eqs.length = [] then
      some (ws ++ [ 'p', '='] ++ body ++ eqs)
    else none
  else none

/-- Full match of the DKIM regex against a cleaned record, returning
the text of group 5 on success. -/
def dkimMatch (l : List Char) : Option (List Char) :=
  if l.take 8 = "v=DKIM1;".data then
    match dkimHGroup (l.drop 8) with
    | none => none
    | some l1 =>
      match dkimKGroup l1 with
      | none => none
      | some l2 =>
        match dkimTGroup l2 with
        | none => none
        | some l3 => dkimPGroup l3
  else none

/-- Model of `validation.validate_dkim_record`: `.ok false` when the
regex does not match in full, `.ok (bytes nonempty)` when it matches
and the sliced group decodes, and `.error` for the uncaught
`binascii.Error` raised by `base64.b64decode`. -/
def validate_dkim_record (s : String) : Except String Bool :=
  match dkimMatch (dkimClean s).data with
  | none => Except.ok false
  | some g5 =>
    match b64decode (g5.drop 2) with
    | none => Except.error "binascii.Error: Invalid padding"
    | some bs => Except.ok (bs ≠ [])

/-! ## RecordParser: DMARC (validation.py lines 246–302)

`get_dmarc_record_match` cleans the record (remove '"', strip), first
validates every address written after a literal `mailto:` (up to the
next ';') through the external `email_validator` collaborator, then
matches the cleaned record in full, case-insensitively, against

  `^v=DMARC1;\s*((p=none|p=quarantine|p=reject|rua=mailto:[^;]+|ruf=mailto:[^;]+|pct=\d{1,3}|sp=none|sp=quarantine|sp=reject|aspf=r|aspf=s|adkim=r|adkim=s|fo=[01ds]|rf=afrf|rf=iodef|ri=\d+);?\s*)*\s*$`

`validate_dmarc_record` then re-searches the raw record for
`pct=(\d{1,3})` and range-checks the first hit.  The alternatives of
the tag grammar have pairwise distinct literal openings and every
greedy sub-match is forced (a shorter match strands a character no
following token can consume), so the grammar is modelled by a
deterministic committed parser. -/

/-- Modelled from the spec: `AddressValidator.validate(emailString) →
normalized address | invalid-syntax error` (section 6).  The concrete
validator is the external `email_validator` library, which is not part
of this repository; this model accepts the usual `local@domain` shape
with an alphanumeric dotted domain of at least two labels. -/
def emailLabelOk (s : String) : Bool :=
  s ≠ "" && s.data.all (fun c => c.isAlphanum || c = '-') &&
    s.data.head? ≠ some '-' && s.data.getLast? ≠ some '-'

/-- Modelled from the spec: acceptance predicate of
`AddressValidator.validate`; see `emailLabelOk`. -/
def emailSyntaxOk (s : String) : Bool :=
  match strSplit '@' s with
  | [lo, dom] =>
    lo ≠ "" && lo.data.all (fun c => c.isAlphanum || c = '.' || c = '_' || c = '-' || c = '+') &&
      (let labels := strSplit '.' dom
       2 ≤ labels.length && labels.all emailLabelOk)
  | _ => false

/-- Python `re.findall(r"mailto:([^;]+)", s)`: every non-overlapping
occurrence of `mailto:` followed by a maximal non-empty run of
non-';' characters.  Fuelled by the input length; every step consumes
at least one character, so the fuel never runs out. -/
def findMailtosF : Nat → List Char → List String
  | 0, _ => []
  | _, [] => []
  | f + 1, c :: rest =>
    if (c :: rest).take 7 = "mailto:".data then
      let after := rest.drop 6
      let addr := after.takeWhile (· ≠ ';')
      if addr = [] then findMailtosF f rest
      else ⟨addr⟩ :: findMailtosF f (after.drop addr.length)
    else findMailtosF f rest

/-- The `mailto:` addresses embedded in a record. -/
def findMailtos (l : List Char) : List String :=
  findMailtosF l.length l

/-- One tag alternative of the DMARC grammar at the head of `l`
(already lowercased); returns the number of characters consumed,
which is positive by construction. -/
def parseTag (l : List Char) : Option { k : Nat // 0 < k } :=
  if l.take 6 = "p=none".data then some ⟨6, by omega⟩
  else if l.take 12 = "p=quarantine".data then some ⟨12, by omega⟩
  else if l.take 8 = "p=reject".data then some ⟨8, by omega⟩
  else if l.take 11 = "rua=mailto:".data then
    (let addr := (l.drop 11).takeWhile (· ≠ ';')
     if addr = [] then none else some ⟨11 + addr.length, by omega⟩)
  else if l.take 11 = "ruf=mailto:".data then
    (let addr := (l.drop 11).takeWhile (· ≠ ';')
     if addr = [] then none else some ⟨11 + addr.length, by omega⟩)
  else if l.take 4 = "pct=".data then
    (let ds := ((l.drop 4).takeWhile Char.isDigit).take 3
     if ds = [] then none else some ⟨4 + ds.length, by omega⟩)
  else if l.take 7 = "sp=none".data then some ⟨7, by omega⟩
  else if l.take 13 = "sp=quarantine".data then some ⟨13, by omega⟩
  else if l.take 9 = "sp=reject".data then some ⟨9, by omega⟩
  else if l.take 6 = "aspf=r".data then some ⟨6, by omega⟩
  else if l.take 6 = "aspf=s".data then some ⟨6, by omega⟩
  else if l.take 7 = "adkim=r".data then some ⟨7, by omega⟩
  else if l.take 7 = "adkim=s".data then some ⟨7, by omega⟩
  else if l.take 3 = "fo=".data then
    (match (l.drop 3).head? with
     | some c => if c = '0' ∨ c = '1' ∨ c = 'd' ∨ c = 's' then some ⟨4, by omega⟩ else none
     | none => none)
  else if l.take 7 = "rf=afrf".data then some ⟨7, by omega⟩
  else if l.take 8 = "rf=iodef".data then some ⟨8, by omega⟩
  else if l.take 3 = "ri=".data then
    (let ds := (l.drop 3).takeWhile Char.isDigit
     if ds = [] then none else some ⟨3 + ds.length, by omega⟩)
  else none

/-- The starred part `((TAG);?\s*)*\s*$` of the DMARC grammar,
matched against the remainder of the record.  Fuelled by the input
length plus one; each iteration consumes at least one character (the
parsed tag length is positive by construction), so the fuel never
runs out. -/
def dmarcLoopF : Nat → List Char → Bool
  | 0, _ => false
  | f + 1, l =>
    match l.dropWhile isPySpace with
    | [] => true
    | c :: cs =>
      match parseTag (c :: cs) with
      | none => false
      | some k =>
        let rest := (c :: cs).drop k.1
        dmarcLoopF f (if rest.head? = some ';' then rest.tail else rest)

/-- The starred tag part of the DMARC grammar with adequate fuel. -/
def dmarcLoop (l : List Char) : Bool :=
  dmarcLoopF (l.length + 1) l

/-- Full, case-insensitive match of the cleaned record against the
DMARC grammar regex. -/
def dmarcGrammarMatch (clean : String) : Bool :=
  let low := strLower clean
  if low.data.take 9 = "v=dmarc1;".data then dmarcLoop (low.data.drop 9)
  else false

/-- Python `re.search(r"pct=(\d{1,3})", s)`: the first occurrence of
`pct=` followed by at least one digit; the capture takes up to three
digits greedily. -/
def pctSearch : List Char → Option Nat
  | [] => none
  | c :: rest =>
    if (c :: rest).take 4 = "pct=".data ∧ ((c :: rest).drop 4).head?.any Char.isDigit then
      some (digitsToNat ((((c :: rest).drop 4).takeWhile Char.isDigit).take 3))
    else pctSearch rest

/-- The three rejection outcomes of `validate_dmarc_record`, one per
distinct raised error: `EmailNotValidError` from the embedded address
validation, `ValueError("The record is not a valid DMARC record.")`,
and `ValueError("The pct value must be between 0 and 100.")`. -/
inductive DmarcError where
  | emailNotValid (addr : String)
  | notValidRecord
  | pctOutOfRange
deriving DecidableEq

/-- Model of `validation.get_dmarc_record_match`: clean the record,
validate every `mailto:` address (first failure raises), then return
whether the grammar matches. -/
def get_dmarc_record_match (record : String) : Except DmarcError Bool :=
  let clean := pyStrip (removeChar '"' record)
  match (findMailtos clean.data).find? (fun a => ¬ emailSyntaxOk a) with
  | some bad => Except.error (DmarcError.emailNotValid bad)
  | none => Except.ok (dmarcGrammarMatch clean)

/-- Model of `validation.validate_dmarc_record` (lines 275–302): on a
grammar match, range-check the first `pct=` digit group found in the
raw record; on a failed match raise the not-valid error.  A `True`
return is the only non-raising outcome. -/
def validate_dmarc_record (record : String) : Except DmarcError Bool :=
  match get_dmarc_record_match record with
  | Except.error e => Except.error e
  | Except.ok m =>
    if m then
      match pctSearch record.data with
      | some v => if 100 < v then Except.error DmarcError.pctOutOfRange else Except.ok true
      | none => Except.ok true
    else Except.error DmarcError.notValidRecord

/-! ## SpfResolver (validation.py lines 150–244)

`spf_check(spf_record, ipv4, ipv6, domain)` in validation.py.  The
`ipv4`/`ipv6` arguments may be `None`, a single string, or a list of
strings (`PyVal` below).  DNS is an external collaborator: `resolve`
models `resolve_domain` (`socket.getaddrinfo`, returning the IPv4 and
IPv6 address lists or raising `socket.gaierror`), and `txt` models
`dns.resolver.resolve(name, "TXT")` (returning the TXT record strings
or raising).  Python's unbounded recursion into included records is
modelled with a fuel parameter; exhausted fuel plays the role of the
interpreter's `RecursionError`, which — like every other exception
raised inside the `include:` try-block — the source catches and turns
into an immediate `return False`.  A fall-through with no `return`
gives Python's implicit `None`, modelled as `Except.ok none`. -/

/-- A Python value that may be `None`, a `str`, or a `list[str]`. -/
inductive PyVal where
  | none
  | str (s : String)
  | list (l : List String)
deriving DecidableEq

/-- Python truthiness of a `PyVal` (`not ipv4`). -/
def PyVal.falsy : PyVal → Bool
  | PyVal.none => true
  | PyVal.str s => s = ""
  | PyVal.list l => l = []

/-- Exceptions spf_check can raise or propagate. -/
inductive SpfError where
  | invalidRecord
  | gaierror
  | valueError
  | typeError
  | recursionDepth
deriving DecidableEq

/-- Model of the inner `list_fix` helper applied to a resolved address
list (`list(set(val))`, or `[]` when empty): deduplication. -/
def list_fix (val : List String) : List String :=
  val.dedup

/-- The `ip4:`/`ip6:` token body: iterate the candidate addresses in
order; a truthy candidate inside the network authorizes, a malformed
candidate or network raises `ValueError` (`is_ip_in_network` is called
outside any try-block). -/
def spfIps : List String → String → Except SpfError Bool
  | [], _ => Except.ok false
  | a :: rest, net =>
    if a = "" then spfIps rest net
    else
      match is_ip_in_network a net with
      | Except.error _ => Except.error SpfError.valueError
      | Except.ok true => Except.ok true
      | Except.ok false => spfIps rest net

/-- Convert an `ipv4`/`ipv6` argument to the iterated list
(`[x] if isinstance(x, str) else x`); iterating `None` raises
`TypeError`. -/
def PyVal.asList : PyVal → Except SpfError (List String)
  | PyVal.none => Except.error SpfError.typeError
  | PyVal.str s => Except.ok [s]
  | PyVal.list l => Except.ok l

/-- Outcome of one `include:` token's try-block. -/
inductive IncludeOut where
  | authorized
  | failed
  | nothing
deriving DecidableEq

/-- The answer loop inside the `include:` try-block: a recursive
`spf_check` returning a truthy value authorizes; any exception inside
the block (from DNS or from the recursive call) is caught and turns
the whole check into `return False`. -/
def spfAnswers (checkRec : String → Except SpfError (Option Bool)) :
    List String → IncludeOut
  | [] => IncludeOut.nothing
  | r :: rest =>
    match checkRec r with
    | Except.error _ => IncludeOut.failed
    | Except.ok (some true) => IncludeOut.authorized
    | Except.ok _ => spfAnswers checkRec rest

/-- The token loop of `spf_check` over `parts[1:]`.  `checkRec` is the
recursive call into `spf_check` for included records. -/
def spfTokens (checkRec : String → Except SpfError (Option Bool))
    (txt : String → Option (List String)) (domain : Option String)
    (ipv4 ipv6 : PyVal) : List String → Except SpfError (Option Bool)
  | [] => Except.ok none
  | part :: rest =>
    if strStartsWith part "include:" then
      let included := (strSplit ':' part).getD 1 ""
      if domain = some included then Except.ok (some true)
      else
        match txt included with
        | none => Except.ok (some false)
        | some answers =>
          match spfAnswers checkRec answers with
          | IncludeOut.authorized => Except.ok (some true)
          | IncludeOut.failed => Except.ok (some false)
          | IncludeOut.nothing => spfTokens checkRec txt domain ipv4 ipv6 rest
    else if strStartsWith part "ip4:" then
      let net := (strSplit ':' part).getD 1 ""
      match ipv4.asList with
      | Except.error e => Except.error e
      | Except.ok l =>
        match spfIps l net with
        | Except.error e => Except.error e
        | Except.ok true => Except.ok (some true)
        | Except.ok false => spfTokens checkRec txt domain ipv4 ipv6 rest
    else if strStartsWith part "ip6:" then
      let net := String.intercalate ":" ((strSplit ':' part).drop 1)
      match ipv6.asList with
      | Except.error e => Except.error e
      | Except.ok l =>
        match spfIps l net with
        | Except.error e => Except.error e
        | Except.ok true => Except.ok (some true)
        | Except.ok false => spfTokens checkRec txt domain ipv4 ipv6 rest
    else spfTokens checkRec txt domain ipv4 ipv6 rest

/-- Model of `validation.spf_check`.  Fuel bounds the recursion into
included records; every claim below is instantiated with sufficient
fuel.  Returns `.ok (some true)` for an authorizing return, `.ok
(some false)` for `return False`, and `.ok none` for the implicit
`None` fall-through. -/
def spf_check (resolve : String → Option (List String × List String))
    (txt : String → Option (List String)) :
    Nat → String → PyVal → PyVal → Option String → Except SpfError (Option Bool)
  | 0, _, _, _, _ => Except.error SpfError.recursionDepth
  | fuel + 1, record, ipv4, ipv6, domain =>
    let domainTruthy : Bool := match domain with
      | some d => d != ""
      | none => false
    let resolved : Except SpfError (PyVal × PyVal) :=
      if (ipv4.falsy || ipv6.falsy) && domainTruthy then
        match resolve (domain.getD "") with
        | none => Except.error SpfError.gaierror
        | some (v4s, v6s) => Except.ok (PyVal.list (list_fix v4s), PyVal.list (list_fix v6s))
      else Except.ok (ipv4, ipv6)
    match resolved with
    | Except.error e => Except.error e
    | Except.ok (ipv4', ipv6') =>
      let cleaned := pyStrip (pyStripChar '"' record)
      let parts := pySplitWs cleaned
      if parts.headD "" ≠ "v=spf1" then Except.error SpfError.invalidRecord
      else
        match spfTokens (spf_check resolve txt fuel · ipv4' ipv6' domain) txt domain
            ipv4' ipv6' (parts.drop 1) with
        | Except.error e => Except.error e
        | Except.ok (some b) => Except.ok (some b)
        | Except.ok none =>
          if parts.contains "-all" then Except.ok (some false) else Except.ok none

/-! ## MD5 (the `hashlib.md5` call in html_parse.py line 156)

A byte-level implementation of MD5 over `Nat` with explicit
`% 2 ^ 32` reductions, used by the CID construction
`hashlib.md5(img_data).hexdigest() + f"{idx}"`. -/

/-- Reduce to a 32-bit value. -/
def u32 (x : Nat) : Nat := x % 4294967296

/-- 32-bit left rotation. -/
def rotl32 (x n : Nat) : Nat := u32 ((x <<< n) ||| (x >>> (32 - n)))

/-- 32-bit complement of a value below `2 ^ 32`. -/
def compl32 (x : Nat) : Nat := 4294967295 - x

/-- The MD5 sine-derived constant table. -/
def md5K : List Nat :=
  [0xd76aa478, 0xe8c7b756, 0x242070db, 0xc1bdceee,
   0xf57c0faf, 0x4787c62a, 0xa8304613, 0xfd469501,
   0x698098d8, 0x8b44f7af, 0xffff5bb1, 0x895cd7be,
   0x6b901122, 0xfd987193, 0xa679438e, 0x49b40821,
   0xf61e2562, 0xc040b340, 0x265e5a51, 0xe9b6c7aa,
   0xd62f105d, 0x02441453, 0xd8a1e681, 0xe7d3fbc8,
   0x21e1cde6, 0xc33707d6, 0xf4d50d87, 0x455a14ed,
   0xa9e3e905, 0xfcefa3f8, 0x676f02d9, 0x8d2a4c8a,
   0xfffa3942, 0x8771f681, 0x6d9d6122, 0xfde5380c,
   0xa4beea44, 0x4bdecfa9, 0xf6bb4b60, 0xbebfbc70,
   0x289b7ec6, 0xeaa127fa, 0xd4ef3085, 0x04881d05,
   0xd9d4d039, 0xe6db99e5, 0x1fa27cf8, 0xc4ac5665,
   0xf4292244, 0x432aff97, 0xab9423a7, 0xfc93a039,
   0x655b59c3, 0x8f0ccc92, 0xffeff47d, 0x85845dd1,
   0x6fa87e4f, 0xfe2ce6e0, 0xa3014314, 0x4e0811a1,
   0xf7537e82, 0xbd3af235, 0x2ad7d2bb, 0xeb86d391]

/-- The MD5 per-round rotation amounts. -/
def md5S : List Nat :=
  [7, 12, 17, 22, 7, 12, 17, 22, 7, 12, 17, 22, 7, 12, 17, 22,
   5, 9, 14, 20, 5, 9, 14, 20, 5, 9, 14, 20, 5, 9, 14, 20,
   4, 11, 16, 23, 4, 11, 16, 23, 4, 11, 16, 23, 4, 11, 16, 23,
   6, 10, 15, 21, 6, 10, 15, 21, 6, 10, 15, 21, 6, 10, 15, 21]

/-- Little-endian bytes of a value, fixed width `k`. -/
def leBytes : Nat → Nat → List Nat
  | 0, _ => []
  | k + 1, v => v % 256 :: leBytes k (v / 256)

/-- The 16 little-endian 32-bit words of one 64-byte block. -/
def md5Words : List Nat → List Nat
  | b0 :: b1 :: b2 :: b3 :: rest => (b0 + 256 * (b1 + 256 * (b2 + 256 * b3))) :: md5Words rest
  | _ => []

/-- One MD5 round. -/
def md5Round (M : List Nat) (st : Nat × Nat × Nat × Nat) (i : Nat) :
    Nat × Nat × Nat × Nat :=
  let (a, b, c, d) := st
  let fg : Nat × Nat :=
    if i < 16 then ((b &&& c) ||| (compl32 b &&& d), i)
    else if i < 32 then ((d &&& b) ||| (compl32 d &&& c), (5 * i + 1) % 16)
    else if i < 48 then (b ^^^ c ^^^ d, (3 * i + 5) % 16)
    else (c ^^^ (b ||| compl32 d), (7 * i) % 16)
  let f := u32 (fg.1 + a + md5K.getD i 0 + M.getD fg.2 0)
  (d, u32 (b + rotl32 f (md5S.getD i 0)), b, c)

/-- Compress one 64-byte block into the running state. -/
def md5Compress (st : Nat × Nat × Nat × Nat) (block : List Nat) :
    Nat × Nat × Nat × Nat :=
  let M := md5Words block
  let r := (List.range 64).foldl (md5Round M) st
  (u32 (st.1 + r.1), u32 (st.2.1 + r.2.1), u32 (st.2.2.1 + r.2.2.1), u32 (st.2.2.2 + r.2.2.2))

/-- Fold the compression function over the 64-byte blocks, fuelled by
the input length (each step consumes 64 bytes, so the fuel never runs
out). -/
def md5BlocksF : Nat → Nat × Nat × Nat × Nat → List Nat → Nat × Nat × Nat × Nat
  | 0, st, _ => st
  | f + 1, st, l =>
    if l = [] then st
    else md5BlocksF f (md5Compress st (l.take 64)) (l.drop 64)

/-- Fold the compression function over the 64-byte blocks. -/
def md5Blocks (st : Nat × Nat × Nat × Nat) (l : List Nat) : Nat × Nat × Nat × Nat :=
  md5BlocksF l.length st l

/-- MD5 padding: a `0x80` byte, zeros to 56 mod 64, then the bit
length as eight little-endian bytes. -/
def md5Pad (msg : List Nat) : List Nat :=
  let len := msg.length
  let zeros := (119 - len % 64) % 64
  msg ++ [0x80] ++ List.replicate zeros 0 ++ leBytes 8 (len * 8 % 18446744073709551616)

/-- The 16 digest bytes of a byte message. -/
def md5Bytes (msg : List Nat) : List Nat :=
  let st := md5Blocks (0x67452301, 0xefcdab89, 0x98badcfe, 0x10325476) (md5Pad msg)
  leBytes 4 st.1 ++ leBytes 4 st.2.1 ++ leBytes 4 st.2.2.1 ++ leBytes 4 st.2.2.2

/-- Lowercase hexadecimal digit character. -/
def hexDigitChar (n : Nat) : Char :=
  if n < 10 then Char.ofNat (n + 48) else Char.ofNat (n + 87)

/-- Python `hashlib.md5(msg).hexdigest()`: 32 lowercase hex characters. -/
def md5Hex (msg : List Nat) : String :=
  ⟨(md5Bytes msg).flatMap (fun b => [hexDigitChar (b / 16), hexDigitChar (b % 16)])⟩

/-! ## ImageEmbedder (html_parse.py lines 52–202)

An HTML document is modelled as the sequence of its `<img>` elements;
each element carries its `src` and its data attributes (BeautifulSoup
parsing and re-serialization are the external boundary).  The network
is the `fetch` oracle (`requests.get`: `some bytes` for a 2xx
response body, `none` for a raised `RequestException`), and PIL
re-encoding is the `pil` oracle (bytes, target container format,
pixel format → converted bytes). -/

/-- An HTML `<img>` element: its `src` attribute and its other
attributes (a BeautifulSoup tag's attribute dictionary). -/
structure ImgTag where
  src : String
  attrs : List (String × String)
deriving DecidableEq

/-- Dictionary lookup in an attribute list. -/
def getAttr (attrs : List (String × String)) (k : String) : Option String :=
  (attrs.find? (fun p => p.1 = k)).map Prod.snd

/-- Dictionary update (`img[key] = value`). -/
def setAttr (attrs : List (String × String)) (k v : String) : List (String × String) :=
  if (attrs.find? (fun p => p.1 = k)).isSome then
    attrs.map (fun p => if p.1 = k then (p.1, v) else p)
  else attrs ++ [(k, v)]

/-- Exceptions the image pipeline can raise. -/
inductive ImgError where
  | valueError (msg : String)
  | attributeError
deriving DecidableEq

/-- Model of `os.path.splitext` on a basename, returning the extension
without its dot ("" when there is none): the extension starts at the
last '.', provided some earlier character of the basename is not a
dot. -/
def splitextExt (base : String) : String :=
  if base.data.contains '.' then
    let revAfter := base.data.reverse.takeWhile (· ≠ '.')
    let beforeLen := base.data.length - revAfter.length - 1
    if (base.data.take beforeLen).any (· ≠ '.') then ⟨revAfter.reverse⟩ else ""
  else ""

/-- Model of `mimetypes.guess_type` restricted to the image extensions
relevant here: the lowercased extension of the locator decides the
content type (`jpg`/`jpeg`, `png`, `gif`), anything else is unknown
(`None`). -/
def guessType (s : String) : Option String :=
  let e := strLower (splitextExt ((strSplit '/' s).getLastD ""))
  if e = "jpg" ∨ e = "jpeg" then some "image/jpeg"
  else if e = "png" then some "image/png"
  else if e = "gif" then some "image/gif"
  else none

/-- Model of `html_parse.change_image_type` (lines 52–106): honour an
optional `data-convert` directive, validating the requested container
and pixel formats, and re-encode through the PIL oracle when the
requested format differs from the detected one.  The oracle stands for
`Image.open(...).convert(pixel_format.upper()).save(io, type.upper())`
and receives the lowercased directives (the source uppercases them at
the PIL call boundary). -/
def change_image_type (pil : List Nat → String → String → List Nat)
    (img : ImgTag) (mimeType : Option String) (imgData : List Nat) :
    Except ImgError (List Nat × Option String) :=
  match getAttr img.attrs "data-convert" with
  | none => Except.ok (imgData, mimeType)
  | some conv =>
    let ct := strLower conv
    if ¬ (ct = "png" ∨ ct = "jpg" ∨ ct = "gif" ∨ ct = "jpeg") then
      Except.error (ImgError.valueError "Invalid value for data-convert attribute")
    else
      let pf := match getAttr img.attrs "data-format" with
        | some f => strLower f
        | none => "rgb"
      if ¬ (pf = "rgb" ∨ pf = "rgba") then
        Except.error (ImgError.valueError "Invalid value for data-format attribute")
      else
        match mimeType with
        | none => Except.error ImgError.attributeError
        | some mt =>
          match strSplit '/' mt with
          | [_, sub] =>
            let fileFormat := strLower (strReplace sub "jpeg" "jpg")
            if ct ≠ fileFormat then
              Except.ok (pil imgData ct pf,
                some ("image/" ++ strReplace ct "jpg" "jpeg"))
            else Except.ok (imgData, some mt)
          | _ => Except.error (ImgError.valueError "unpack")

/-- Path component of `urllib.parse.urlparse` for an `http(s)` URL:
everything from the first '/' after the authority, cut at the first
'?' or '#'. -/
def urlPath (s : String) : String :=
  let rest : List Char := if strStartsWith s "https://" then s.data.drop 8 else s.data.drop 7
  let afterHost := rest.dropWhile (· ≠ '/')
  ⟨afterHost.takeWhile (fun c => c ≠ '?' ∧ c ≠ '#')⟩

/-- Model of `os.path.splitext(path)[1].lstrip(".")` on a URL path:
the extension of the path's basename without its dot. -/
def extOfPath (p : String) : String :=
  splitextExt ((strSplit '/' p).getLastD "")

/-- An inline image part registered with the MIME assembler
(`MIMEImage` with a `Content-ID` and an inline disposition). -/
structure Attachment where
  data : List Nat
  subtype : String
  cid : String
  disposition : String
deriving DecidableEq

/-- The content identifier of html_parse.py lines 156–157:
`hashlib.md5(img_data).hexdigest() + f"{idx}"`. -/
def cidFor (data : List Nat) (idx : Nat) : String :=
  md5Hex data ++ Nat.repr idx

/-- Model of `html_parse.process_img_element` (lines 109–168): skip
non-HTTP(S) locators, fetch the bytes (a failed fetch leaves the
element untouched), optionally convert, then rewrite as a base64 data
URI or attach as a CID inline image.  Returns the resulting element
and the attachment emitted, if any. -/
def process_img_element (fetch : String → Option (List Nat))
    (pil : List Nat → String → String → List Nat)
    (img : ImgTag) (idx : Nat) (convertToBase64 : Bool) (hasEmailMessage : Bool) :
    Except ImgError (ImgTag × Option Attachment) :=
  let src := img.src
  let contentType := guessType src
  if ¬ (strStartsWith src "http://" ∨ strStartsWith src "https://") then
    Except.ok (img, none)
  else
    match fetch src with
    | none => Except.ok (img, none)
    | some respData =>
      match change_image_type pil img contentType respData with
      | Except.error e => Except.error e
      | Except.ok (imgData, ct) =>
        if convertToBase64 then
          let ext := extOfPath (urlPath src)
          let b64 : String := ⟨b64encode imgData⟩
          Except.ok
            ({ src := "data:image/" ++ ext ++ ";base64," ++ b64,
               attrs := setAttr img.attrs "data-smtpymailer" "" }, none)
        else if hasEmailMessage then
          match ct with
          | none => Except.error ImgError.attributeError
          | some c =>
            match strSplit '/' c with
            | [_, sub] =>
              let cid := cidFor imgData idx
              Except.ok
                ({ src := "cid:" ++ cid,
                   attrs := setAttr img.attrs "data-smtpymailer" "" },
                 some ⟨imgData, sub, cid, "inline"⟩)
            | _ => Except.error (ImgError.valueError "unpack")
        else Except.ok (img, none)

/-- The indexed element loop of `attach_images_as_cid`
(`for idx, img in enumerate(soup.find_all("img"))`): process every
element in document order with its ordinal index, collecting rewritten
elements and emitted attachments; an exception aborts the whole call. -/
def attachCidGo (fetch : String → Option (List Nat))
    (pil : List Nat → String → String → List Nat) (idx : Nat) :
    List ImgTag → Except ImgError (List ImgTag × List Attachment)
  | [] => Except.ok ([], [])
  | t :: ts =>
    match process_img_element fetch pil t idx false true with
    | Except.error e => Except.error e
    | Except.ok (t', att) =>
      match attachCidGo fetch pil (idx + 1) ts with
      | Except.error e => Except.error e
      | Except.ok (ts', atts) => Except.ok (t' :: ts', att.elim atts (· :: atts))

/-- Model of `html_parse.attach_images_as_cid` (lines 188–202). -/
def attach_images_as_cid (fetch : String → Option (List Nat))
    (pil : List Nat → String → String → List Nat) (imgs : List ImgTag) :
    Except ImgError (List ImgTag × List Attachment) :=
  attachCidGo fetch pil 0 imgs

/-- The indexed element loop of `convert_img_elements_to_base64`. -/
def convertB64Go (fetch : String → Option (List Nat))
    (pil : List Nat → String → String → List Nat) (idx : Nat) :
    List ImgTag → Except ImgError (List ImgTag)
  | [] => Except.ok []
  | t :: ts =>
    match process_img_element fetch pil t idx true false with
    | Except.error e => Except.error e
    | Except.ok (t', _) =>
      match convertB64Go fetch pil (idx + 1) ts with
      | Except.error e => Except.error e
      | Except.ok ts' => Except.ok (t' :: ts')

/-- Model of `html_parse.convert_img_elements_to_base64` (lines
171–185): process every element in document order in base64 mode. -/
def convert_img_elements_to_base64 (fetch : String → Option (List Nat))
    (pil : List Nat → String → String → List Nat) (imgs : List ImgTag) :
    Except ImgError (List ImgTag) :=
  convertB64Go fetch pil 0 imgs

/-! ## Supporting lemmas

Injectivity of the decimal representation `Nat.repr` (used by the CID
construction, which appends `f"{idx}"` to the digest), and a
positivity property of the base64 decoder (a successful decode of a
payload containing a data character is non-empty). -/

/-- Fuelled digit accumulation agrees with `Nat.digits` once the fuel
dominates the number of digits. -/
theorem toDigitsCore_eq_digits (f : Nat) : ∀ (n : Nat) (acc : List Char),
    0 < n → n < 10 ^ f →
    Nat.toDigitsCore 10 f n acc = ((Nat.digits 10 n).reverse.map Nat.digitChar) ++ acc := by
  induction f with
  | zero =>
    intro n acc h0 hf
    simp only [pow_zero] at hf
    omega
  | succ f ih =>
    intro n acc h0 hf
    rw [Nat.digits_def' (by norm_num : (1:ℕ) < 10) h0]
    simp only [Nat.toDigitsCore]
    by_cases hdiv : n / 10 = 0
    · simp [hdiv, Nat.digits_zero]
    · rw [if_neg hdiv]
      have hlt : n / 10 < 10 ^ f := by
        rw [Nat.div_lt_iff_lt_mul (by norm_num : 0 < 10)]
        calc n < 10 ^ (f + 1) := hf
          _ = 10 ^ f * 10 := by ring
      rw [ih (n / 10) (Nat.digitChar (n % 10) :: acc) (Nat.pos_of_ne_zero hdiv) hlt]
      simp

/-- Characters of the decimal representation of a positive number. -/
theorem repr_data_eq_digits (n : Nat) (h0 : 0 < n) :
    (Nat.repr n).data = (Nat.digits 10 n).reverse.map Nat.digitChar := by
  have hlt : n < 10 ^ (n + 1) :=
    Nat.lt_trans (Nat.lt_pow_self (by norm_num) n)
      (Nat.pow_lt_pow_right (by norm_num) (Nat.lt_succ_self n))
  show (Nat.toDigitsCore 10 (n + 1) n []).asString.data = _
  rw [toDigitsCore_eq_digits (n + 1) n [] h0 hlt]
  simp [List.asString]

/-- Decimal digit characters determine the digit. -/
theorem digitChar_inj_fin : ∀ a b : Fin 10,
    Nat.digitChar a.1 = Nat.digitChar b.1 → a = b := by
  decide

/-- Lists of digits below ten are determined by their characters. -/
theorem map_digitChar_inj : ∀ (l₁ l₂ : List Nat),
    (∀ x ∈ l₁, x < 10) → (∀ x ∈ l₂, x < 10) →
    l₁.map Nat.digitChar = l₂.map Nat.digitChar → l₁ = l₂ := by
  intro l₁
  induction l₁ with
  | nil => intro l₂ _ _ h; cases l₂ <;> simp_all
  | cons a t ih =>
    intro l₂ h₁ h₂ h
    cases l₂ with
    | nil => simp at h
    | cons b t₂ =>
      simp only [List.map_cons, List.cons.injEq] at h
      have ha : a < 10 := h₁ a (by simp)
      have hb : b < 10 := h₂ b (by simp)
      have hab : a = b := by
        have := digitChar_inj_fin ⟨a, ha⟩ ⟨b, hb⟩ h.1
        exact congrArg Fin.val this
      have ht : t = t₂ :=
        ih t₂ (fun x hx => h₁ x (List.mem_cons_of_mem a hx))
          (fun x hx => h₂ x (List.mem_cons_of_mem b hx)) h.2
      rw [hab, ht]

/-- The decimal representation of a positive number is never "0". -/
theorem repr_pos_ne_zero_str (n : Nat) (h0 : 0 < n) : Nat.repr n ≠ "0" := by
  intro h
  have hd : (Nat.repr n).data = ['0'] := by rw [h]
  rw [repr_data_eq_digits n h0] at hd
  have hdig : Nat.digits 10 n = [0] := by
    have hlen : (Nat.digits 10 n).reverse.length = 1 := by
      have := congrArg List.length hd
      simpa using this
    match hrev : (Nat.digits 10 n).reverse with
    | [] => rw [hrev] at hlen; simp at hlen
    | [d] =>
      rw [hrev] at hd
      simp only [List.map_cons, List.map_nil, List.cons.injEq] at hd
      have hdm : d ∈ Nat.digits 10 n := by
        have : d ∈ (Nat.digits 10 n).reverse := by rw [hrev]; simp
        simpa using this
      have hdlt : d < 10 := Nat.digits_lt_base (by norm_num) hdm
      have : d = 0 := by
        have := digitChar_inj_fin ⟨d, hdlt⟩ ⟨0, by norm_num⟩ (by simpa using hd.1)
        exact congrArg Fin.val this
      subst this
      have := congrArg List.reverse hrev
      simpa using this
    | d₁ :: d₂ :: rest => rw [hrev] at hlen; simp at hlen
  have : n = 0 := by
    have := Nat.ofDigits_digits 10 n
    rw [hdig] at this
    simpa [Nat.ofDigits] using this.symm
  omega

/-- Injectivity of the decimal representation. -/
theorem nat_repr_injective : ∀ m n : Nat, Nat.repr m = Nat.repr n → m = n := by
  intro m n h
  rcases Nat.eq_zero_or_pos m with hm | hm
  · rcases Nat.eq_zero_or_pos n with hn | hn
    · omega
    · subst hm
      exact absurd h.symm (repr_pos_ne_zero_str n hn)
  · rcases Nat.eq_zero_or_pos n with hn | hn
    · subst hn
      exact absurd h (repr_pos_ne_zero_str m hm)
    · have hd := congrArg String.data h
      rw [repr_data_eq_digits m hm, repr_data_eq_digits n hn] at hd
      have hrev : (Nat.digits 10 m).reverse = (Nat.digits 10 n).reverse := by
        refine map_digitChar_inj _ _ ?_ ?_ hd
        · intro x hx
          exact Nat.digits_lt_base (by norm_num) (by simpa using hx)
        · intro x hx
          exact Nat.digits_lt_base (by norm_num) (by simpa using hx)
      have hdig : Nat.digits 10 m = Nat.digits 10 n := by
        have := congrArg List.reverse hrev
        simpa using this
      calc m = Nat.ofDigits 10 (Nat.digits 10 m) := (Nat.ofDigits_digits 10 m).symm
        _ = Nat.ofDigits 10 (Nat.digits 10 n) := by rw [hdig]
        _ = n := Nat.ofDigits_digits 10 n

/-- Concatenation of strings concatenates their characters. -/
theorem string_data_append (a b : String) : (a ++ b).data = a.data ++ b.data := rfl

/-- Two `cidFor` identifiers for the same bytes at distinct positions
differ. -/
theorem cidFor_position_injective (d : List Nat) (i j : Nat) (hne : i ≠ j) :
    cidFor d i ≠ cidFor d j := by
  intro h
  apply hne
  apply nat_repr_injective
  have hd := congrArg String.data h
  rw [show cidFor d i = md5Hex d ++ Nat.repr i from rfl,
      show cidFor d j = md5Hex d ++ Nat.repr j from rfl,
      string_data_append, string_data_append] at hd
  have := List.append_cancel_left hd
  exact String.ext this

/-- The base64 decoding loop only ever extends its output, and a quad
in progress guarantees at least one more byte on success. -/
theorem a2bLoop_length_mono : ∀ (cs : List Char) (buf q pads : Nat) (out res : List Nat),
    a2bLoop cs buf q pads out = some res →
    out.length ≤ res.length ∧ (1 ≤ q → out.length + 1 ≤ res.length) := by
  intro cs
  induction cs with
  | nil =>
    intro buf q pads out res h
    simp only [a2bLoop] at h
    split at h
    · cases h
      refine ⟨by simp, fun _ => ?_⟩
      omega
    · cases h
  | cons c cs ih =>
    intro buf q pads out res h
    simp only [a2bLoop] at h
    split at h
    · -- c = '='
      split at h
      · -- 2 ≤ q
        split at h
        · -- enough padding: the partial quad is emitted and decoding ends
          split at h
          · cases h
            refine ⟨?_, fun _ => ?_⟩ <;>
              (simp only [List.length_reverse, List.length_cons]; omega)
          · cases h
            refine ⟨?_, fun _ => ?_⟩ <;>
              (simp only [List.length_reverse, List.length_cons]; omega)
        · exact ih buf q (pads + 1) out res h
      · exact ih buf q pads out res h
    · split at h
      · -- data character
        split at h
        · -- q = 3: a quad completes, three bytes are emitted
          have hm := ih 0 0 pads _ res h
          simp only [List.length_cons] at hm
          refine ⟨?_, fun _ => ?_⟩ <;> omega
        · have hm := ih (buf * 64 + b64Val c) (q + 1) pads out res h
          refine ⟨hm.1, fun _ => hm.2 (by omega)⟩
      · exact ih buf q pads out res h

/-- A successful decode of input containing a base64 data character is
non-empty. -/
theorem a2bLoop_ne_nil : ∀ (cs : List Char) (buf pads : Nat) (res : List Nat),
    a2bLoop cs buf 0 pads [] = some res → (∃ c ∈ cs, isB64Char c) → res ≠ [] := by
  intro cs
  induction cs with
  | nil =>
    intro _ _ _ _ hc
    simp at hc
  | cons c cs ih =>
    intro buf pads res h hc
    rcases hc with ⟨x, hx, hbx⟩
    simp only [a2bLoop] at h
    split at h
    · -- c = '=' at quad position 0: the padding character is ignored
      split at h
      · exfalso; omega
      · refine ih _ _ _ h ?_
        rcases List.mem_cons.mp hx with rfl | hx'
        · exfalso; simp_all [isB64Char]
        · exact ⟨x, hx', hbx⟩
    · split at h
      · -- data character: the quad is now in progress
        split at h
        · exfalso; omega
        · intro hres
          have hm := (a2bLoop_length_mono cs (buf * 64 + b64Val c) (0 + 1) pads [] res h).2
            (by omega)
          rw [hres] at hm
          simp at hm
      · -- skipped character
        refine ih _ _ _ h ?_
        rcases List.mem_cons.mp hx with rfl | hx'
        · exfalso; simp_all
        · exact ⟨x, hx', hbx⟩

/-- Membership in the part of an appended list that survives `drop 2`. -/
theorem mem_drop_two_append (xs ys : List Char) (b : Char) (hb : b ∈ ys)
    (hx : 2 ≤ xs.length) : b ∈ (xs ++ ys).drop 2 := by
  rw [List.drop_append_of_le_length hx]
  exact List.mem_append_right _ hb

/-- The payload sliced out of a matched DKIM record always retains a
base64 data character (the `p=` body is non-empty and starts at
position at least two of the fifth group). -/
theorem dkimPGroup_payload_has_data (l g5 : List Char) (h : dkimPGroup l = some g5) :
    ∃ c ∈ g5.drop 2, isB64Char c := by
  simp only [dkimPGroup] at h
  split at h
  · split at h
    · rename_i hcond
      cases h
      obtain ⟨b, bs, hb⟩ := List.exists_cons_of_ne_nil hcond.1
      have hbmem : b ∈ List.takeWhile isB64Char
          ((l.drop (l.takeWhile isPySpace).length).drop 2) := by
        rw [hb]
        exact List.mem_cons_self b bs
      refine ⟨b, ?_, List.mem_takeWhile_imp hbmem⟩
      rw [List.append_assoc]
      exact mem_drop_two_append _ _ _ (List.mem_append_left _ hbmem)
        (by simp only [List.length_append, List.length_cons, List.length_nil]; omega)
    · cases h
  · cases h

/-! ## Claims -/

/-- Claim C8: `is_ip_in_network` returns `True` when both strings
parse and the IP literal falls inside the CIDR network (in particular
for the spec's example `"2001:0db8:85a3::7334" ∈ "2001:0db8::/32"`),
returns `False` when both parse but the IP is outside, and raises an
explicit error — never a boolean — when either input fails to parse:
"not in network" and "input was garbage" are distinguishable. -/
theorem c8_is_ip_in_network_outcomes :
    is_ip_in_network "2001:0db8:85a3::7334" "2001:0db8::/32" = Except.ok true ∧
    (∀ ip net a i, ip_address ip = some a → ip_interface net = some i →
      is_ip_in_network ip net = Except.ok (ipInIface a i)) ∧
    (∀ ip net, ip_address ip = none ∨ ip_interface net = none →
      is_ip_in_network ip net = Except.error "Invalid IP or network") ∧
    (∀ ip net b, is_ip_in_network ip net = Except.ok b →
      (ip_address ip).isSome ∧ (ip_interface net).isSome) := by
  refine ⟨by decide, ?_, ?_, ?_⟩
  · intro ip net a i ha hi
    simp [is_ip_in_network, ha, hi]
  · intro ip net h
    rcases h with h | h
    · simp [is_ip_in_network, h]
    · unfold is_ip_in_network
      rw [h]
      cases ip_address ip <;> rfl
  · intro ip net b h
    unfold is_ip_in_network at h
    cases ha : ip_address ip <;> cases hi : ip_interface net <;>
      rw [ha, hi] at h <;> simp_all

/-- Claim C8 witness: the general clauses applied at concrete inputs —
the same IPv6 network with a non-matching literal yields `.ok false`,
and a malformed network string yields the explicit error. -/
theorem c8_witness :
    (ip_address "2001:0db9::7334" = some (IpAddr.v6 42540766490510755371168322545197806388) ∧
      ip_interface "2001:0db8::/32" = some ⟨true, 42540766411282592856903984951653826560, 32⟩ ∧
      is_ip_in_network "2001:0db9::7334" "2001:0db8::/32" =
        Except.ok (ipInIface (IpAddr.v6 42540766490510755371168322545197806388)
          ⟨true, 42540766411282592856903984951653826560, 32⟩) ∧
      ipInIface (IpAddr.v6 42540766490510755371168322545197806388)
          ⟨true, 42540766411282592856903984951653826560, 32⟩ = false) ∧
    (ip_interface "not-a-valid-network" = none ∧
      is_ip_in_network "192.168.1.1" "not-a-valid-network" =
        Except.error "Invalid IP or network") := by
  refine ⟨⟨by decide, by decide, ?_, by decide⟩, ⟨by decide, ?_⟩⟩
  · exact c8_is_ip_in_network_outcomes.2.1 _ _ _ _ (by decide) (by decide)
  · exact c8_is_ip_in_network_outcomes.2.2.1 "192.168.1.1" "not-a-valid-network"
      (Or.inr (by decide))

/-- Claim C10: for every string input, `validate_dmarc_record` either
returns `True` or raises; it never returns `False` — every rejection
is surfaced as a raised error. -/
theorem c10_validate_dmarc_never_false (record : String) :
    validate_dmarc_record record ≠ Except.ok false ∧
    (validate_dmarc_record record = Except.ok true ∨
      ∃ e, validate_dmarc_record record = Except.error e) := by
  unfold validate_dmarc_record
  cases hm : get_dmarc_record_match record with
  | error e => exact ⟨by simp, Or.inr ⟨e, rfl⟩⟩
  | ok m =>
    cases m with
    | false => exact ⟨by simp, Or.inr ⟨DmarcError.notValidRecord, rfl⟩⟩
    | true =>
      cases hp : pctSearch record.data with
      | none => exact ⟨by simp, Or.inl rfl⟩
      | some v =>
        by_cases hv : 100 < v
        · refine ⟨by simp [hv], Or.inr ⟨DmarcError.pctOutOfRange, by simp [hv]⟩⟩
        · refine ⟨by simp [hv], Or.inl (by simp [hv])⟩

/-- Claim C7 counterexample: the record
`"v=DMARC1; rua=mailto:bad; pct=200"` matches the DMARC grammar and
carries `pct=200`, outside `[0,100]`, yet validation fails with the
invalid-report-address error (the embedded `mailto:` addresses are
checked before the `pct` range), not with the range-specific reason
the claim requires. -/
theorem c7_counterexample :
    dmarcGrammarMatch (pyStrip (removeChar '"' "v=DMARC1; rua=mailto:bad; pct=200")) = true ∧
    pctSearch ("v=DMARC1; rua=mailto:bad; pct=200").data = some 200 ∧
    validate_dmarc_record "v=DMARC1; rua=mailto:bad; pct=200" =
      Except.error (DmarcError.emailNotValid "bad") ∧
    DmarcError.emailNotValid "bad" ≠ DmarcError.pctOutOfRange := by
  refine ⟨by decide, by decide, by decide, by decide⟩

/-- Claim C7 (amended): for every DMARC record that matches the
grammar and whose embedded `mailto:` addresses all pass address
validation (`get_dmarc_record_match` returns a match), a first `pct=`
occurrence with value outside `[0,100]` raises the range-specific
error — a reason distinct from the malformed-grammar and
invalid-address rejections — while a first occurrence inside `[0,100]`
(or no occurrence) is not rejected. -/
theorem c7_pct_range_distinct (record : String)
    (hm : get_dmarc_record_match record = Except.ok true) :
    (∀ v, pctSearch record.data = some v → 100 < v →
      validate_dmarc_record record = Except.error DmarcError.pctOutOfRange) ∧
    (∀ v, pctSearch record.data = some v → v ≤ 100 →
      validate_dmarc_record record = Except.ok true) ∧
    (pctSearch record.data = none → validate_dmarc_record record = Except.ok true) ∧
    (DmarcError.pctOutOfRange ≠ DmarcError.notValidRecord ∧
      ∀ a, DmarcError.pctOutOfRange ≠ DmarcError.emailNotValid a) := by
  refine ⟨?_, ?_, ?_, by simp, fun a => by simp⟩
  · intro v hv hrange
    unfold validate_dmarc_record
    rw [hm]
    simp [hv, hrange]
  · intro v hv hrange
    unfold validate_dmarc_record
    rw [hm]
    simp only [if_true]
    rw [hv]
    simp
    omega
  · intro hv
    unfold validate_dmarc_record
    rw [hm]
    simp [hv]

/-- Claim C7 witness: the amended claim applied to concrete records —
`pct=200` with a valid report address raises the range error, and
`pct=50` passes. -/
theorem c7_witness :
    validate_dmarc_record "v=DMARC1; rua=mailto:a@example.com; pct=200" =
      Except.error DmarcError.pctOutOfRange ∧
    validate_dmarc_record "v=DMARC1; rua=mailto:a@example.com; pct=50" =
      Except.ok true := by
  constructor
  · exact (c7_pct_range_distinct _ (by decide)).1 200 (by decide) (by decide)
  · exact (c7_pct_range_distinct _ (by decide)).2.1 50 (by decide) (by decide)

/-- Claim C1 counterexample: with a TXT oracle that fails on the
included domain, the record
`"v=spf1 include:bad.example ip4:192.0.2.0/24"` tested against the
IPv4 address `192.0.2.1` — which the later `ip4:` token authorizes —
evaluates to `return False`, not to the authorized result the claim
requires: the DNS failure is a hard failure of the whole check. -/
theorem c1_counterexample :
    spf_check (fun _ => none) (fun _ => none) 2
        "v=spf1 include:bad.example ip4:192.0.2.0/24"
        (PyVal.str "192.0.2.1") PyVal.none none = Except.ok (some false) ∧
    spf_check (fun _ => none) (fun _ => none) 2
        "v=spf1 ip4:192.0.2.0/24"
        (PyVal.str "192.0.2.1") PyVal.none none = Except.ok (some true) ∧
    (Except.ok (some false) : Except SpfError (Option Bool)) ≠ Except.ok (some true) := by
  refine ⟨by decide, by decide, by decide⟩

/-- Claim C1 (amended): when DNS TXT resolution of an included domain
fails (and the included domain is not the domain under test),
`spf_check` returns `False` immediately — the exception handler around
the include executes `return False`, so the remaining tokens are never
evaluated (the token list after the failing include is arbitrary). -/
theorem c1_include_dns_failure_hard (checkRec : String → Except SpfError (Option Bool))
    (txt : String → Option (List String)) (domain : Option String)
    (ipv4 ipv6 : PyVal) (token : String) (rest : List String)
    (hstart : strStartsWith token "include:" = true)
    (hdom : domain ≠ some ((strSplit ':' token).getD 1 ""))
    (htxt : txt ((strSplit ':' token).getD 1 "") = none) :
    spfTokens checkRec txt domain ipv4 ipv6 (token :: rest) = Except.ok (some false) := by
  unfold spfTokens
  rw [if_pos hstart, if_neg hdom, htxt]

/-- Claim C1 witness: the amended claim applied at a concrete failing
include followed by a concrete authorizing token. -/
theorem c1_witness :
    spfTokens (fun _ => Except.ok none) (fun _ => none) none
      (PyVal.str "192.0.2.1") PyVal.none
      ["include:bad.example", "ip4:192.0.2.0/24"] = Except.ok (some false) :=
  c1_include_dns_failure_hard (fun _ => Except.ok none) (fun _ => none) none
    (PyVal.str "192.0.2.1") PyVal.none "include:bad.example" ["ip4:192.0.2.0/24"]
    (by decide) (by decide) rfl

/-- Claim C2: evaluation at the failing input.  When no token matches
and `-all` is absent, `spf_check` falls off the end of the function
and returns Python's implicit `None` (modelled `.ok none`), not the
`True` the claim and the function's docstring describe; with `-all`
present it returns `False` as claimed. -/
theorem c2_implicit_none_fall_through :
    spf_check (fun _ => none) (fun _ => none) 1 "v=spf1 ip4:192.0.2.0/24"
        (PyVal.str "203.0.113.5") PyVal.none none = Except.ok none ∧
    spf_check (fun _ => none) (fun _ => none) 1 "v=spf1 ip4:192.0.2.0/24 -all"
        (PyVal.str "203.0.113.5") PyVal.none none = Except.ok (some false) ∧
    (Except.ok none : Except SpfError (Option Bool)) ≠ Except.ok (some true) := by
  refine ⟨by decide, by decide, by decide⟩

/-- Claim C9: an `include:` token whose included domain textually
equals the domain under test authorizes immediately — for every TXT
oracle (so no DNS resolution of the include can matter) and every
remaining token list; and the spec's example record
`"v=spf1 include:example.com -all"` with `domain="example.com"` is
authorized for every TXT oracle and every answer the upfront
`resolve_domain` call returns. -/
theorem c9_self_include_short_circuit :
    (∀ (checkRec : String → Except SpfError (Option Bool))
        (txt : String → Option (List String)) (ipv4 ipv6 : PyVal)
        (token d : String) (rest : List String),
        strStartsWith token "include:" = true →
        (strSplit ':' token).getD 1 "" = d →
        spfTokens checkRec txt (some d) ipv4 ipv6 (token :: rest) = Except.ok (some true)) ∧
    (∀ (txt : String → Option (List String)) (v4s v6s : List String) (fuel : Nat),
        spf_check (fun _ => some (v4s, v6s)) txt (fuel + 1)
          "v=spf1 include:example.com -all" PyVal.none PyVal.none
          (some "example.com") = Except.ok (some true)) := by
  constructor
  · intro checkRec txt ipv4 ipv6 token d rest hstart hd
    unfold spfTokens
    rw [if_pos hstart, if_pos (by rw [hd])]
  · intro txt v4s v6s fuel
    rfl

/-- Claim C9 witness: the self-include clause applied at the spec's
example token, and the full check at concrete oracles. -/
theorem c9_witness :
    spfTokens (fun _ => Except.ok none) (fun _ => none) (some "example.com")
        PyVal.none PyVal.none ["include:example.com", "-all"] = Except.ok (some true) ∧
    spf_check (fun _ => some ([], [])) (fun _ => none) 1
        "v=spf1 include:example.com -all" PyVal.none PyVal.none
        (some "example.com") = Except.ok (some true) := by
  constructor
  · exact c9_self_include_short_circuit.1 (fun _ => Except.ok none) (fun _ => none)
      PyVal.none PyVal.none "include:example.com" "example.com" ["-all"]
      (by decide) (by decide)
  · exact c9_self_include_short_circuit.2 (fun _ => none) [] [] 0

/-- Success leaves of the DKIM full match come from the `p=` group. -/
theorem dkimMatch_pgroup (l g5 : List Char) (h : dkimMatch l = some g5) :
    ∃ l3, dkimPGroup l3 = some g5 := by
  unfold dkimMatch at h
  split at h
  · split at h
    · cases h
    · split at h
      · cases h
      · split at h
        · cases h
        · exact ⟨_, h⟩
  · cases h

/-- Claim C3 counterexample: `"v=DKIM1; p=abc"` matches the DKIM
record shape, yet `validate_dkim_record` raises the uncaught
`binascii.Error` from `base64.b64decode` instead of returning a
definite failure value — malformed base64 is not a normal rejection
outcome in this code. -/
theorem c3_counterexample :
    (dkimMatch (dkimClean "v=DKIM1; p=abc").data).isSome = true ∧
    validate_dkim_record "v=DKIM1; p=abc" =
      Except.error "binascii.Error: Invalid padding" := by
  refine ⟨by decide, by decide⟩

/-- Claim C3 (amended): `validate_dkim_record` returns `True` when the
record matches the DKIM shape and the `p=` payload base64-decodes,
returns `False` when the overall shape does not match (in particular
when `p=` is absent), but when the shape matches and the payload fails
base64 decoding it raises the `binascii.Error` unhandled instead of
returning a failure value. -/
theorem c3_validate_dkim_amended (s : String) :
    (dkimMatch (dkimClean s).data = none → validate_dkim_record s = Except.ok false) ∧
    (∀ g5, dkimMatch (dkimClean s).data = some g5 →
      ((∃ bs, b64decode (g5.drop 2) = some bs) → validate_dkim_record s = Except.ok true) ∧
      (b64decode (g5.drop 2) = none →
        validate_dkim_record s = Except.error "binascii.Error: Invalid padding")) := by
  constructor
  · intro h
    unfold validate_dkim_record
    rw [h]
  · intro g5 hg
    constructor
    · rintro ⟨bs, hbs⟩
      unfold validate_dkim_record
      rw [hg]
      dsimp only
      rw [hbs]
      have hne : bs ≠ [] := by
        obtain ⟨l3, hpg⟩ := dkimMatch_pgroup _ _ hg
        exact a2bLoop_ne_nil _ _ _ _ hbs (dkimPGroup_payload_has_data _ _ hpg)
      simp [hne]
    · intro hn
      unfold validate_dkim_record
      rw [hg]
      dsimp only
      rw [hn]

/-- Claim C3 witness: the amended claim at concrete records — a
well-formed payload validates, a non-matching record is rejected with
`False`. -/
theorem c3_witness :
    validate_dkim_record "v=DKIM1; h=sha256; k=rsa; p=YWJj" = Except.ok true ∧
    validate_dkim_record "invalid_dkim_record" = Except.ok false := by
  constructor
  · exact ((c3_validate_dkim_amended "v=DKIM1; h=sha256; k=rsa; p=YWJj").2
      "p=YWJj".data (by decide)).1 ⟨[97, 98, 99], by decide⟩
  · exact (c3_validate_dkim_amended "invalid_dkim_record").1 (by decide)

/-- Frame property of the per-element image processor: when the
element's fetch fails, the element is returned byte-for-byte unchanged
and no attachment is emitted. -/
theorem process_img_fetch_failure_frame (fetch : String → Option (List Nat))
    (pil : List Nat → String → String → List Nat) (img : ImgTag) (idx : Nat)
    (h : fetch img.src = none) :
    process_img_element fetch pil img idx false true = Except.ok (img, none) := by
  simp only [process_img_element]
  by_cases hs : (strStartsWith img.src "http://" = true ∨ strStartsWith img.src "https://" = true)
  · rw [if_neg (not_not_intro hs), h]
  · rw [if_pos hs]

/-- Successful CID processing of a plain remote JPEG element at
ordinal position 1. -/
theorem process_img_ok_example (fetch : String → Option (List Nat))
    (pil : List Nat → String → String → List Nat) (d : List Nat)
    (hok : fetch "https://img.example/ok.jpg" = some d) :
    process_img_element fetch pil ⟨"https://img.example/ok.jpg", []⟩ 1 false true =
      Except.ok (⟨"cid:" ++ cidFor d 1, [("data-smtpymailer", "")]⟩,
        some ⟨d, "jpeg", cidFor d 1, "inline"⟩) := by
  simp only [process_img_element]
  rw [if_neg (by decide), hok]
  rfl

/-- Claim C4: evaluation at the failing input.  An image element whose
source is the local filesystem path `./tests/assets/dog.jpg` (which
exists on disk in this repository) is returned untouched with no
attachment by `process_img_element`, for every fetch and conversion
oracle, every ordinal position and both destination modes: the code
returns as soon as the source does not start with `http://` or
`https://`, so no local file is ever read and the element is never
rewritten — contradicting the claim and the repository's own
local-image tests. -/
theorem c4_local_path_never_embedded (fetch : String → Option (List Nat))
    (pil : List Nat → String → String → List Nat) (idx : Nat) (b c : Bool) :
    process_img_element fetch pil ⟨"./tests/assets/dog.jpg", []⟩ idx b c =
      Except.ok (⟨"./tests/assets/dog.jpg", []⟩, none) := rfl

/-- Claim C5: in CID mode the content identifier of every emitted
attachment equals `cidFor` of its final bytes and the element's
ordinal position — a pure function of the bytes and the position
alone, with no clock or randomness input; byte-identical data at equal
positions gives identical identifiers, and byte-identical data at
distinct positions gives distinct identifiers. -/
theorem c5_cid_content_addressing :
    (∀ (fetch : String → Option (List Nat)) (pil : List Nat → String → String → List Nat)
        (img : ImgTag) (idx : Nat) (img' : ImgTag) (att : Attachment),
        process_img_element fetch pil img idx false true = Except.ok (img', some att) →
        att.cid = cidFor att.data idx) ∧
    (∀ (d₁ d₂ : List Nat) (i₁ i₂ : Nat), d₁ = d₂ → i₁ = i₂ → cidFor d₁ i₁ = cidFor d₂ i₂) ∧
    (∀ (d : List Nat) (i j : Nat), i ≠ j → cidFor d i ≠ cidFor d j) := by
  refine ⟨?_, ?_, ?_⟩
  · intro fetch pil img idx img' att h
    simp only [process_img_element, Bool.false_eq_true, if_false, if_true] at h
    split at h
    · exact absurd h (by simp)
    · split at h
      · exact absurd h (by simp)
      · split at h
        · exact absurd h (by simp)
        · split at h
          · exact absurd h (by simp)
          · split at h
            · simp only [Except.ok.injEq, Prod.mk.injEq, Option.some.injEq] at h
              rw [← h.2]
            · exact absurd h (by simp)
  · intro d₁ d₂ i₁ i₂ hd hi
    rw [hd, hi]
  · exact cidFor_position_injective

/-- Claim C5 witness: the linking clause applied at a concrete
successful CID processing, and distinctness applied at equal bytes
and the distinct positions 0 and 1. -/
theorem c5_witness :
    cidFor [9] 1 = cidFor [9] 1 ∧ cidFor [9] 0 ≠ cidFor [9] 1 := by
  constructor
  · exact c5_cid_content_addressing.2.1 [9] [9] 1 1 rfl rfl
  · exact c5_cid_content_addressing.2.2 [9] 0 1 (by decide)

/-- Claim C6: in CID mode an element whose fetch fails is left with
its source byte-for-byte unchanged and contributes no attachment, and
processing continues: a document whose first remote image is
unreachable and whose second is fetchable yields exactly one attached
part, the unreachable element untouched and the fetchable one
rewritten. -/
theorem c6_failed_fetch_is_local :
    (∀ (fetch : String → Option (List Nat)) (pil : List Nat → String → String → List Nat)
        (img : ImgTag) (idx : Nat), fetch img.src = none →
        process_img_element fetch pil img idx false true = Except.ok (img, none)) ∧
    (∀ (fetch : String → Option (List Nat)) (pil : List Nat → String → String → List Nat)
        (d : List Nat),
        fetch "https://img.example/bad.jpg" = none →
        fetch "https://img.example/ok.jpg" = some d →
        attach_images_as_cid fetch pil
          [⟨"https://img.example/bad.jpg", []⟩, ⟨"https://img.example/ok.jpg", []⟩] =
          Except.ok ([⟨"https://img.example/bad.jpg", []⟩,
            ⟨"cid:" ++ cidFor d 1, [("data-smtpymailer", "")]⟩],
            [⟨d, "jpeg", cidFor d 1, "inline"⟩])) := by
  constructor
  · exact process_img_fetch_failure_frame
  · intro fetch pil d hbad hok
    have h1 := process_img_fetch_failure_frame fetch pil ⟨"https://img.example/bad.jpg", []⟩ 0 hbad
    have h2 := process_img_ok_example fetch pil d hok
    simp only [attach_images_as_cid, attachCidGo, h1, h2]
    rfl

/-- Claim C6 witness: the document clause applied at a concrete fetch
oracle reaching one of the two images, yielding exactly one attached
part and the unreachable source unchanged. -/
theorem c6_witness :
    attach_images_as_cid
      (fun s => if s = "https://img.example/ok.jpg" then some [9] else none)
      (fun b _ _ => b)
      [⟨"https://img.example/bad.jpg", []⟩, ⟨"https://img.example/ok.jpg", []⟩] =
      Except.ok ([⟨"https://img.example/bad.jpg", []⟩,
        ⟨"cid:" ++ cidFor [9] 1, [("data-smtpymailer", "")]⟩],
        [⟨[9], "jpeg", cidFor [9] 1, "inline"⟩]) :=
  c6_failed_fetch_is_local.2
    (fun s => if s = "https://img.example/ok.jpg" then some [9] else none)
    (fun b _ _ => b) [9] (by decide) (by decide)

end Smtpymailer
